import Mathlib

/-!
Shallow embedding of `src/scanner.py` (class `WebScanner`): a web
path scanner that fingerprints a target's index and not-found pages,
probes wordlist candidates concurrently under a semaphore, suppresses
responses similar to a baseline, and records discovered URLs.

String-level operations (Python `str.split()`, `str.split('/')`,
`str.rstrip('/')`, `str.lower()`) are embedded as structural recursions
over `List Char` so that all definitions evaluate by kernel reduction.
HTTP transport is abstracted as oracles: a per-path oracle
`String → Option (ℕ × String)` (`some (status, body)` for an HTTP
response, `none` for a transport failure after retries) and, inside the
retry loop, a per-attempt oracle `ℕ → Option (ℕ × String)`.
-/

namespace WebScanner

/-- Python `str.split()` (whitespace split, empty chunks dropped),
as a structural recursion: `wsplitAux cs acc` walks `cs` keeping the
reversed current chunk in `acc`. -/
def wsplitAux : List Char → List Char → List (List Char)
  | [], acc => if acc.isEmpty then [] else [acc.reverse]
  | c :: cs, acc =>
    if c.isWhitespace then
      if acc.isEmpty then wsplitAux cs []
      else acc.reverse :: wsplitAux cs []
    else wsplitAux cs (c :: acc)

/-- The whitespace-delimited token set of a body, mirroring
`set(text.split())` in `WebScanner.similarity`. -/
def tokens (s : String) : Finset String :=
  ((wsplitAux s.toList []).map String.mk).toFinset

/-- `WebScanner.similarity`: Jaccard token-set overlap
`len(intersection) / len(union) if union else 0`, with exact rational
division (`Rat.divInt`) in place of Python float division. -/
def similarity (text1 text2 : String) : ℚ :=
  let words1 := tokens text1
  let words2 := tokens text2
  let inter := words1 ∩ words2
  let uni := words1 ∪ words2
  if uni = ∅ then 0 else Rat.divInt inter.card uni.card

/-- The 0.8 duplicate threshold of `is_similar_to_index_or_404`. -/
def threshold : ℚ := Rat.divInt 4 5

/-- One baseline comparison of `WebScanner.is_similar_to_index_or_404`:
Python truthiness (`if self.index_content and ...`) makes both `None`
and the empty string skip the comparison. -/
def baselineMatch (content : String) : Option String → Bool
  | none => false
  | some s => s != "" && decide (similarity content s > threshold)

/-- `WebScanner.is_similar_to_index_or_404`: true when the body matches
the index baseline or the not-found baseline above the 0.8 threshold. -/
def is_similar_to_index_or_404 (index_content not_found_content : Option String)
    (content : String) : Bool :=
  if baselineMatch content index_content then true
  else if baselineMatch content not_found_content then true
  else false

/-- Python `str.lower()`, character by character. -/
def strLower (s : String) : String := String.mk (s.toList.map Char.toLower)

/-- The retry loop of `WebScanner.get_page_content`. `att i` is attempt
`i`'s transport outcome (`some (status, body)` for an HTTP response of
any status, `none` for a raised transport error); `maxRetry` is
`self.max_retry` (an `ℤ`, since Python lets it be negative). The first
argument counts the loop iterations of `for attempt in
range(max_retry + 1)` still to run; the second is the current value of
`attempt`. An HTTP response returns at once with a lower-cased body;
the last attempt's transport error returns `(none, none)`; a completed
loop without a `return` yields the outer `none` (Python's implicit
`None`, not a pair). The second component counts attempts made. -/
def fetchIter (att : ℕ → Option (ℕ × String)) (maxRetry : ℤ) :
    ℕ → ℕ → Option (Option ℕ × Option String) × ℕ
  | 0, _ => (none, 0)
  | k + 1, attempt =>
    match att attempt with
    | some (st, body) => (some (some st, some (strLower body)), 1)
    | none =>
      if (attempt : ℤ) < maxRetry then
        let r := fetchIter att maxRetry k (attempt + 1)
        (r.1, r.2 + 1)
    else (some (none, none), 1)

/-- `WebScanner.get_page_content` as a function of the attempt oracle:
the value the caller destructures, or `none` when the loop body never
ran (`range(max_retry + 1)` empty). -/
def get_page_content (att : ℕ → Option (ℕ × String)) (maxRetry : ℤ) :
    Option (Option ℕ × Option String) :=
  (fetchIter att maxRetry (maxRetry + 1).toNat 0).1

/-- How many transport attempts `get_page_content` makes. -/
def attemptCount (att : ℕ → Option (ℕ × String)) (maxRetry : ℤ) : ℕ :=
  (fetchIter att maxRetry (maxRetry + 1).toNat 0).2

/-- Python `s.split(sep)` for a single separator char, over `List Char`:
`splitOnChar sep cs` never returns `[]`. -/
def splitOnChar (sep : Char) : List Char → List (List Char)
  | [] => [[]]
  | c :: cs =>
    match splitOnChar sep cs with
    | [] => [[]]
    | g :: gs => if c == sep then [] :: g :: gs else (c :: g) :: gs

/-- Python `path.split('/')`. -/
def splitSlash (s : String) : List String := (splitOnChar '/' s.toList).map String.mk

/-- Python `'/'.join(parts)`. -/
def joinSlash : List String → String
  | [] => ""
  | [x] => x
  | x :: y :: xs => x ++ "/" ++ joinSlash (y :: xs)

/-- Drops empty segments except a final one (helper for urllib's
`segments[1:-1] = filter(None, segments[1:-1])`). -/
def dropEmptyButLast : List String → List String
  | [] => []
  | [x] => [x]
  | x :: y :: xs =>
    if x = "" then dropEmptyButLast (y :: xs) else x :: dropEmptyButLast (y :: xs)

/-- urllib's interior-segment filter: the first and last segments are
kept, empty interior segments are dropped. -/
def filterInterior : List String → List String
  | [] => []
  | x :: xs => x :: dropEmptyButLast xs

/-- A parsed absolute URL, as `urllib.parse.urlparse` represents the
targets this scanner handles: scheme, network location, path. Query,
fragment and params are empty for every URL the scanner builds. -/
structure ParsedUrl where
  scheme : String
  netloc : String
  path : String
deriving DecidableEq

/-- urllib's relative-path merge inside `urljoin`, for a relative
reference that is a plain path (no scheme, no netloc, no leading `/`,
no `.`/`..` segments — every wordlist candidate satisfies this): drop
the base path's last segment unless it is empty, append the reference's
segments, filter empty interior segments, and fall back to `/` when the
join is empty. -/
def mergePath (bpath rel : String) : String :=
  let baseParts := splitSlash bpath
  let kept := if baseParts.getLastD "" = "" then baseParts else baseParts.dropLast
  let joined := joinSlash (filterInterior (kept ++ splitSlash rel))
  if joined = "" then "/" else joined

/-- Python `path[:1] == '/'`. -/
def startsWithSlash (s : String) : Bool :=
  match s.toList with
  | [] => false
  | c :: _ => c == '/'

/-- `urllib.parse.urljoin(base, rel)` for the references this scanner
issues: the empty reference returns the base, an absolute path replaces
the base path, and a relative path is merged by `mergePath`. -/
def urljoin (base : ParsedUrl) (rel : String) : ParsedUrl :=
  if rel = "" then base
  else if startsWithSlash rel then ParsedUrl.mk base.scheme base.netloc rel
  else ParsedUrl.mk base.scheme base.netloc (mergePath base.path rel)

/-- Python `url.rstrip('/')` at the path level. -/
def rstripSlash (s : String) : String :=
  String.mk ((s.toList.reverse.dropWhile (fun c => c == '/')).reverse)

/-- `WebScanner.__init__`: the stored target is the given URL with
trailing slashes stripped (`self.url = url.rstrip('/')`). -/
def mkTarget (u : ParsedUrl) : ParsedUrl :=
  ParsedUrl.mk u.scheme u.netloc (rstripSlash u.path)

/-- Renders a parsed URL back to a string (`urllib.parse.urlunparse`
with empty params, query and fragment). -/
def urlString (u : ParsedUrl) : String := u.scheme ++ "://" ++ u.netloc ++ u.path

/-- What one probe's `print` call classified the result as. -/
inductive ProbeLog where
  | found
  | skippedSimilar
  | notFound
  | silent
deriving DecidableEq

/-- The observable effects of one `WebScanner.check_path` call:
the URL appended to `found_paths` (if any), the `(url, status)` payload
of the attempted webhook notification (if any), the exception the
task's `try/except` caught and logged (if any), and the log class. -/
structure ProbeEffect where
  appended : Option String
  notified : Option (String × ℕ)
  caught : Option String
  log : ProbeLog
deriving DecidableEq

/-- `WebScanner.check_path` on one candidate. `fetched` is the pair
`get_page_content(path)` returned (`none` for the `(None, None)`
transport-failure pair); `notifyErr` is an exception the notification
call raises, if any — caught by the task's `except`, never propagated.
The test `if status and 200 <= status < 300` uses Python truthiness, so
a present status must also be nonzero; `found_paths.append(full_url)`
records only the URL, before the webhook call; the webhook is called
only when a webhook URL is configured. -/
def check_path (target : ParsedUrl) (webhook : Option String) (ic nf : Option String)
    (path : String) (fetched : Option (ℕ × String)) (notifyErr : Option String) :
    ProbeEffect :=
  let full_url := urlString (urljoin target path)
  match fetched with
  | none => ProbeEffect.mk none none none ProbeLog.silent
  | some (status, content) =>
    if status ≠ 0 ∧ 200 ≤ status ∧ status < 300 then
      if is_similar_to_index_or_404 ic nf content = false then
        ProbeEffect.mk (some full_url)
          (webhook.map (fun _ => (full_url, status)))
          (if webhook.isSome then notifyErr else none)
          ProbeLog.found
      else ProbeEffect.mk none none none ProbeLog.skippedSimilar
    else if status ≠ 0 then ProbeEffect.mk none none none ProbeLog.notFound
    else ProbeEffect.mk none none none ProbeLog.silent

/-- `WebScanner.detect_index_and_404` as a function of the per-path
fetch oracle (`oracle p` is what `get_page_content(p)` returns, with
`none` for the transport-failure pair). Returns `some (index_content,
not_found_content)` on success, `none` when the scan must abort: the
root fetch must yield status exactly 200 (`if status == 200`); the
not-found baseline comes from whichever of the two nonexistent-path
probes first returns status 404, else stays `none`. -/
def detect_index_and_404 (oracle : String → Option (ℕ × String)) :
    Option (String × Option String) :=
  match oracle "" with
  | none => none
  | some (status, content) =>
    if status = 200 then
      let second :=
        match oracle "anothernonexistent98765" with
        | some (st2, c2) => if st2 = 404 then some c2 else none
        | none => none
      let nf :=
        match oracle "nonexistentpage12345" with
        | some (st1, c1) => if st1 = 404 then some c1 else second
        | none => second
      some (content, nf)
    else none

/-- `WebScanner.scan`: the `found_paths` list at the end of the scan.
Baseline failure returns with no findings; otherwise every wordlist
entry is probed and contributes its appended URL, if any. The
concurrent tasks' append order is abstracted to wordlist order (the
spec fixes no order); `notifyErr p` is the notification exception
inside candidate `p`'s task, if any. -/
def scanFindings (target : ParsedUrl) (webhook : Option String) (wordlist : List String)
    (oracle : String → Option (ℕ × String)) (notifyErr : String → Option String) :
    List String :=
  match detect_index_and_404 oracle with
  | none => []
  | some (ic, nf) =>
    wordlist.filterMap fun p =>
      (check_path target webhook (some ic) nf p (oracle p) (notifyErr p)).appended

/-- The candidates for which `WebScanner.scan` creates a probe task:
none when the baseline aborts the scan, one task per wordlist entry
otherwise (`tasks = [limited_check(path) for path in self.wordlist]`). -/
def dispatchedProbes (wordlist : List String) (oracle : String → Option (ℕ × String)) :
    List String :=
  match detect_index_and_404 oracle with
  | none => []
  | some _ => wordlist

/-- A probe task's phase with respect to the admission gate
(`asyncio.Semaphore(self.threads)` in `WebScanner.scan`): not yet
admitted, holding a slot (executing its fetch), or finished. -/
inductive TaskPhase where
  | waiting
  | holding
  | done
deriving DecidableEq

/-- The scheduler state of `WebScanner.scan`'s probing phase: the
semaphore's free-slot count and each task's phase. -/
structure PoolState where
  sem : ℕ
  tasks : List TaskPhase
deriving DecidableEq

/-- Whether a task currently holds an admission-gate slot. -/
def isHolding : TaskPhase → Bool
  | TaskPhase.waiting => false
  | TaskPhase.holding => true
  | TaskPhase.done => false

/-- How many tasks hold the admission gate. -/
def holdingCount (s : PoolState) : ℕ :=
  s.tasks.countP isHolding

/-- One scheduler step of the semaphore-gated task pool
(`async with semaphore` in `limited_check`): a waiting task may start
only by taking a free slot; a holding task that finishes — normally or
by raising into the task's `except` — always returns its slot, because
`async with` releases on every exit path. -/
inductive PoolStep : PoolState → PoolState → Prop where
  | acquire (sem : ℕ) (ts : List TaskPhase) (i : ℕ)
      (h : ts.get? i = some TaskPhase.waiting) :
      PoolStep (PoolState.mk (sem + 1) ts) (PoolState.mk sem (ts.set i TaskPhase.holding))
  | finishOk (sem : ℕ) (ts : List TaskPhase) (i : ℕ)
      (h : ts.get? i = some TaskPhase.holding) :
      PoolStep (PoolState.mk sem ts) (PoolState.mk (sem + 1) (ts.set i TaskPhase.done))
  | finishErr (sem : ℕ) (ts : List TaskPhase) (i : ℕ)
      (h : ts.get? i = some TaskPhase.holding) :
      PoolStep (PoolState.mk sem ts) (PoolState.mk (sem + 1) (ts.set i TaskPhase.done))

/-- The pool's initial state: `threads` free slots, `m` tasks waiting. -/
def poolInit (threads m : ℕ) : PoolState :=
  PoolState.mk threads (List.replicate m TaskPhase.waiting)

/-- States the probing phase can reach under any interleaving. -/
def PoolReach (threads m : ℕ) (s : PoolState) : Prop :=
  Relation.ReflTransGen PoolStep (poolInit threads m) s

/-- Concrete fetch oracle: the root returns 201 (a success-range status
that is not 200), everything else transport-fails. -/
def oracle201 : String → Option (ℕ × String) :=
  fun p => if p = "" then some (201, "welcome") else none

/-- Concrete fetch oracle: root 200, first nonexistent probe 404,
candidate `admin` a fresh 200 page, everything else transport-fails. -/
def oracleDup : String → Option (ℕ × String) :=
  fun p =>
    if p = "" then some (200, "home page")
    else if p = "nonexistentpage12345" then some (404, "not found error")
    else if p = "admin" then some (200, "secret area xyz")
    else none

end WebScanner

namespace WebScanner

/-- The similarity function is symmetric in its two bodies. -/
theorem similarity_comm (a b : String) : similarity a b = similarity b a := by
  simp only [similarity]
  rw [Finset.inter_comm, Finset.union_comm]

/-- A body whose token set is non-empty has similarity 1 with itself. -/
theorem similarity_self (a : String) (h : tokens a ≠ ∅) : similarity a a = 1 := by
  have hc : (tokens a).card ≠ 0 := fun hc => h (Finset.card_eq_zero.mp hc)
  simp only [similarity, Finset.inter_self, Finset.union_self, if_neg h]
  rw [Rat.divInt_eq_div, div_self]
  exact_mod_cast hc

/-- Bodies with disjoint token sets have similarity 0. -/
theorem similarity_eq_zero_of_inter (a b : String) (h : tokens a ∩ tokens b = ∅) :
    similarity a b = 0 := by
  simp only [similarity]
  split
  · rfl
  · simp [h]

/-- Similarity against the empty baseline body is always 0: the empty
string has no whitespace tokens. -/
theorem similarity_right_empty (c : String) : similarity c "" = 0 := by
  apply similarity_eq_zero_of_inter
  have h : tokens "" = ∅ := rfl
  simp [h]

/-- The 0.8 threshold is positive. -/
theorem threshold_pos : 0 < threshold := by decide

/-- `baselineMatch` holds exactly when the baseline is a present body with
similarity above the threshold; Python's truthiness skip of the empty
string changes nothing, as similarity to `""` is 0. -/
theorem baselineMatch_iff (c : String) (b : Option String) :
    baselineMatch c b = true ↔ ∃ s, b = some s ∧ similarity c s > threshold := by
  cases b with
  | none => simp [baselineMatch]
  | some s =>
    simp only [baselineMatch, Bool.and_eq_true, bne_iff_ne, ne_eq, decide_eq_true_eq,
      Option.some.injEq]
    constructor
    · rintro ⟨_, hgt⟩
      exact ⟨s, rfl, hgt⟩
    · rintro ⟨t, ht, hgt⟩
      subst ht
      refine ⟨fun hs => ?_, hgt⟩
      subst hs
      rw [similarity_right_empty] at hgt
      exact absurd hgt (not_lt_of_le threshold_pos.le)

/-- The classifier is the disjunction of the two baseline comparisons. -/
theorem is_similar_eq_or (ic nf : Option String) (c : String) :
    is_similar_to_index_or_404 ic nf c = (baselineMatch c ic || baselineMatch c nf) := by
  unfold is_similar_to_index_or_404
  cases h1 : baselineMatch c ic <;> cases h2 : baselineMatch c nf <;> simp [h1, h2]

end WebScanner

/-- Claim C2: `is_similar_to_index_or_404` returns true iff the body's
similarity to a present index baseline exceeds 0.8, or the not-found
baseline is present and the body's similarity to it exceeds 0.8; with
both baselines absent it returns false for every body. -/
theorem C2_is_similar_iff (ic nf : Option String) (c : String) :
    (WebScanner.is_similar_to_index_or_404 ic nf c = true ↔
        ((∃ s, ic = some s ∧ WebScanner.similarity c s > WebScanner.threshold) ∨
         (∃ s, nf = some s ∧ WebScanner.similarity c s > WebScanner.threshold)))
    ∧ WebScanner.is_similar_to_index_or_404 none none c = false := by
  refine ⟨?_, by rfl⟩
  rw [WebScanner.is_similar_eq_or, Bool.or_eq_true,
    WebScanner.baselineMatch_iff, WebScanner.baselineMatch_iff]

/-- Claim C3, counterexample: two identical strings with an empty token
set have similarity 0, not 1 (the empty-union rule wins). -/
theorem C3_counterexample :
    WebScanner.similarity "" "" = 0 ∧ ¬ WebScanner.similarity "" "" = 1 := by decide

/-- Claim C1, counterexample: a probe with status 200 and a body that is
no duplicate of either baseline creates a Finding, yet with no webhook
URL configured no notification is attempted, and the entry appended to
the findings collection is the bare URL string — the claim's
unconditional "triggers a notification" and "contains both the
discovered URL and the integer HTTP status" fail here. -/
theorem C1_counterexample :
    (WebScanner.check_path (WebScanner.ParsedUrl.mk "http" "h" "") none
        (some "home page") (some "not found error") "admin"
        (some (200, "secret area xyz")) none).appended = some "http://h/admin"
    ∧ (WebScanner.check_path (WebScanner.ParsedUrl.mk "http" "h" "") none
        (some "home page") (some "not found error") "admin"
        (some (200, "secret area xyz")) none).notified = none := by decide

/-- Claim C1, amended: a Finding (an append to `found_paths`) is created
iff the probe returned a present status in 200–299 and the body is not
classified as a duplicate; the appended entry is the discovered URL
(the status appears in the log line and the notification payload, not
in the collection); a notification carrying the URL and status is
attempted exactly when a finding is created and a webhook URL is
configured; a transport-failed probe appends and notifies nothing. -/
theorem C1_check_path_amended (target : WebScanner.ParsedUrl) (webhook : Option String)
    (ic nf : Option String) (path : String) (st : ℕ) (content : String)
    (notifyErr : Option String) :
    ((WebScanner.check_path target webhook ic nf path (some (st, content))
          notifyErr).appended
        = some (WebScanner.urlString (WebScanner.urljoin target path))
      ↔ 200 ≤ st ∧ st < 300
          ∧ WebScanner.is_similar_to_index_or_404 ic nf content = false)
    ∧ ((WebScanner.check_path target webhook ic nf path (some (st, content))
          notifyErr).appended = none
        ∨ (WebScanner.check_path target webhook ic nf path (some (st, content))
          notifyErr).appended
          = some (WebScanner.urlString (WebScanner.urljoin target path)))
    ∧ (WebScanner.check_path target webhook ic nf path (some (st, content))
          notifyErr).notified
        = (if 200 ≤ st ∧ st < 300
              ∧ WebScanner.is_similar_to_index_or_404 ic nf content = false then
            webhook.map (fun _ =>
              (WebScanner.urlString (WebScanner.urljoin target path), st))
          else none)
    ∧ (WebScanner.check_path target webhook ic nf path none notifyErr).appended = none
    ∧ (WebScanner.check_path target webhook ic nf path none notifyErr).notified
        = none := by
  by_cases h1 : 200 ≤ st ∧ st < 300
  · have h0 : st ≠ 0 ∧ 200 ≤ st ∧ st < 300 := ⟨by omega, h1⟩
    by_cases h2 : WebScanner.is_similar_to_index_or_404 ic nf content = false
    · simp [WebScanner.check_path, h0, h1, h2]
    · simp [WebScanner.check_path, h0, h1, h2]
  · have h0 : ¬ (st ≠ 0 ∧ 200 ≤ st ∧ st < 300) := fun h => h1 ⟨h.2.1, h.2.2⟩
    have hif : ¬ (200 ≤ st ∧ st < 300
        ∧ WebScanner.is_similar_to_index_or_404 ic nf content = false) :=
      fun h => h1 ⟨h.1, h.2.1⟩
    by_cases hz : st ≠ 0
    · simp [WebScanner.check_path, h0, h1, hz]
      exact ⟨fun ha hb => absurd ⟨ha, hb⟩ h1, by rw [if_neg hif]⟩
    · simp [WebScanner.check_path, h0, h1, hz]
      exact ⟨fun ha hb => absurd ⟨ha, hb⟩ h1, by rw [if_neg hif]⟩

/-- Claim C1, witness: the spec's Scenario B — candidate `backup.zip`
returns 200 with a fresh body against the standard baselines, and the
Finding is recorded. -/
theorem C1_witness :
    (WebScanner.check_path (WebScanner.ParsedUrl.mk "http" "h" "") (some "hook")
        (some "home page") (some "not found error") "backup.zip"
        (some (200, "archive contents xyz")) none).appended
      = some "http://h/backup.zip" := by
  have h := C1_check_path_amended (WebScanner.ParsedUrl.mk "http" "h" "") (some "hook")
    (some "home page") (some "not found error") "backup.zip" 200 "archive contents xyz"
    none
  exact (h.1.mpr ⟨by decide, by decide, by decide⟩).trans (by decide)

/-- Claim C4, counterexample: a root status of 201 is in the success
range, yet `detect_index_and_404` tests `status == 200` and aborts the
scan: no findings, no probe tasks — the claim's "conversely, a
success-range status proceeds" fails. -/
theorem C4_counterexample :
    (200 ≤ 201 ∧ 201 < 300)
    ∧ WebScanner.detect_index_and_404 WebScanner.oracle201 = none
    ∧ WebScanner.scanFindings (WebScanner.ParsedUrl.mk "http" "h" "") none ["admin"]
        WebScanner.oracle201 (fun _ => none) = []
    ∧ WebScanner.dispatchedProbes ["admin"] WebScanner.oracle201 = [] := by decide

/-- Claim C4, amended: the baseline succeeds iff the root fetch yields
status exactly 200 (any other status, 2xx included, and any transport
failure abort the scan); an aborted baseline reports zero findings and
dispatches no probe task. -/
theorem C4_detect_amended (oracle : String → Option (ℕ × String)) :
    ((WebScanner.detect_index_and_404 oracle).isSome = true ↔
        ∃ c, oracle "" = some (200, c))
    ∧ (∀ (target : WebScanner.ParsedUrl) (webhook : Option String)
        (wordlist : List String) (notifyErr : String → Option String),
        WebScanner.detect_index_and_404 oracle = none →
          WebScanner.scanFindings target webhook wordlist oracle notifyErr = []
          ∧ WebScanner.dispatchedProbes wordlist oracle = []) := by
  constructor
  · cases h : oracle "" with
    | none => simp [WebScanner.detect_index_and_404, h]
    | some pr =>
      obtain ⟨st, c⟩ := pr
      by_cases h2 : st = 200
      · subst h2
        simp [WebScanner.detect_index_and_404, h]
      · simp [WebScanner.detect_index_and_404, h, h2]
  · intro target webhook wordlist notifyErr hnone
    exact ⟨by simp [WebScanner.scanFindings, hnone],
      by simp [WebScanner.dispatchedProbes, hnone]⟩

/-- Claim C4, witness: with a concrete root that answers 200 the
baseline is established (satisfying the amended iff), and with the
aborting oracle the scan is empty. -/
theorem C4_witness :
    (WebScanner.detect_index_and_404 WebScanner.oracleDup).isSome = true :=
  (C4_detect_amended WebScanner.oracleDup).1.mpr ⟨"home page", by decide⟩

/-- Claim C6, counterexample: probing candidate `admin` against target
`http://h/app` requests `http://h/admin` — the target's existing path
prefix `/app` is replaced, not preserved, because the stored target is
`rstrip('/')`-ed and `urljoin` drops the last path segment. -/
theorem C6_counterexample :
    WebScanner.urlString (WebScanner.urljoin
        (WebScanner.mkTarget (WebScanner.ParsedUrl.mk "http" "h" "/app")) "admin")
      = "http://h/admin"
    ∧ WebScanner.urlString (WebScanner.urljoin
        (WebScanner.mkTarget (WebScanner.ParsedUrl.mk "http" "h" "/app")) "admin")
      ≠ "http://h/app/admin" := by decide

/-- Claim C6, amended: the requested URL always preserves the target's
scheme and host; the empty candidate returns the target itself, a
`/`-prefixed candidate replaces the whole path, and any other candidate
replaces the part of the target's path after its last `/` (the merge of
`urljoin`) — so a target with a non-slash-terminated path has its last
segment replaced rather than extended. -/
theorem C6_urljoin_amended (base : WebScanner.ParsedUrl) (rel : String) :
    (WebScanner.urljoin base rel).scheme = base.scheme
    ∧ (WebScanner.urljoin base rel).netloc = base.netloc
    ∧ (rel = "" → WebScanner.urljoin base rel = base)
    ∧ (WebScanner.startsWithSlash rel = true → (WebScanner.urljoin base rel).path = rel)
    ∧ (rel ≠ "" → WebScanner.startsWithSlash rel = false →
        (WebScanner.urljoin base rel).path = WebScanner.mergePath base.path rel) := by
  by_cases h1 : rel = ""
  · subst h1
    simp [WebScanner.urljoin, WebScanner.startsWithSlash]
  · by_cases h2 : WebScanner.startsWithSlash rel = true
    · simp [WebScanner.urljoin, h1, h2]
    · simp [WebScanner.urljoin, h1, h2]

/-- Claim C3, amended: similarity is symmetric for all strings; identical
strings with a non-empty token set have similarity 1; disjoint token sets
give similarity 0; an empty union gives 0 (so identical all-whitespace
strings give 0, not 1). -/
theorem C3_similarity_amended (a b : String) :
    WebScanner.similarity a b = WebScanner.similarity b a
    ∧ (WebScanner.tokens a ≠ ∅ → WebScanner.similarity a a = 1)
    ∧ (WebScanner.tokens a ∩ WebScanner.tokens b = ∅ → WebScanner.similarity a b = 0)
    ∧ (WebScanner.tokens a ∪ WebScanner.tokens b = ∅ → WebScanner.similarity a b = 0) := by
  refine ⟨WebScanner.similarity_comm a b, WebScanner.similarity_self a,
    WebScanner.similarity_eq_zero_of_inter a b, fun h => ?_⟩
  simp [WebScanner.similarity, h]

namespace WebScanner

/-- One unfolding step of the retry loop, stated so later rewrites can
unfold exactly one iteration at a time. -/
theorem fetchIter_succ (att : ℕ → Option (ℕ × String)) (mr : ℤ) (k attempt : ℕ) :
    fetchIter att mr (k + 1) attempt
      = (match att attempt with
          | some (st, body) => (some (some st, some (strLower body)), 1)
          | none =>
            if (attempt : ℤ) < mr then
              ((fetchIter att mr k (attempt + 1)).1, (fetchIter att mr k (attempt + 1)).2 + 1)
            else (some (none, none), 1)) := rfl

/-- When every attempt up to `max_retry` transport-fails, the loop runs
all its iterations: `fetchIter` started at `attempt` with `k + 1`
iterations left (so `attempt + k = max_retry`) makes `k + 1` attempts
and returns the failure pair. -/
theorem fetchIter_all_none (att : ℕ → Option (ℕ × String)) (mr : ℕ)
    (hall : ∀ i, i ≤ mr → att i = none) :
    ∀ k attempt, attempt + k = mr →
      fetchIter att (mr : ℤ) (k + 1) attempt = (some (none, none), k + 1) := by
  intro k
  induction k with
  | zero =>
    intro attempt h
    have ha : attempt = mr := by omega
    subst ha
    rw [fetchIter_succ, hall attempt le_rfl]
    simp
  | succ k ih =>
    intro attempt h
    have hle : attempt ≤ mr := by omega
    have hlt : (attempt : ℤ) < (mr : ℤ) := by exact_mod_cast (by omega : attempt < mr)
    rw [fetchIter_succ, hall attempt hle]
    simp only [if_pos hlt, ih (attempt + 1) (by omega)]

/-- The first attempt that yields an HTTP response returns at once:
started at `attempt ≤ j` with `attempt + k = max_retry + 1` iterations
left, where the attempts before `j` transport-fail and attempt `j`
responds, `fetchIter` returns the response after `j + 1 - attempt`
attempts. -/
theorem fetchIter_first_some (att : ℕ → Option (ℕ × String)) (mr j st : ℕ) (body : String)
    (hj : att j = some (st, body)) (hbefore : ∀ i, i < j → att i = none) (hjm : j ≤ mr) :
    ∀ k attempt, attempt + k = mr + 1 → attempt ≤ j →
      fetchIter att (mr : ℤ) k attempt
        = (some (some st, some (strLower body)), j + 1 - attempt) := by
  intro k
  induction k with
  | zero =>
    intro attempt h ha
    omega
  | succ k ih =>
    intro attempt h ha
    by_cases he : attempt = j
    · subst he
      rw [fetchIter_succ, hj]
      simp only
      congr 1
      omega
    · have hlt : attempt < j := lt_of_le_of_ne ha he
      have hltm : (attempt : ℤ) < (mr : ℤ) := by exact_mod_cast (by omega : attempt < mr)
      rw [fetchIter_succ, hbefore attempt hlt]
      simp only [if_pos hltm, ih (attempt + 1) (by omega) (by omega)]
      congr 1
      omega

/-- With `k` iterations left and `attempt + k = max_retry + 1`, a
positive `k` guarantees the loop returns a pair. -/
theorem fetchIter_isSome (att : ℕ → Option (ℕ × String)) (mr : ℤ) :
    ∀ (k attempt : ℕ), (attempt : ℤ) + (k : ℤ) = mr + 1 → 0 < k →
      ((fetchIter att mr k attempt).1.isSome = true) := by
  intro k
  induction k with
  | zero =>
    intro attempt h hk
    exact absurd hk (by omega)
  | succ k ih =>
    intro attempt h _
    rw [fetchIter_succ]
    cases hatt : att attempt with
    | some pr =>
      obtain ⟨s, b⟩ := pr
      simp
    | none =>
      by_cases hlt : (attempt : ℤ) < mr
      · have hk : 0 < k := by omega
        simp only [if_pos hlt]
        exact ih (attempt + 1) (by push_cast; push_cast at h; omega) hk
      · simp [if_neg hlt]

end WebScanner

/-- Claim C5: a fetch whose transport attempts all fail makes exactly
`max_retry + 1` attempts and returns the `(None, None)` pair; the first
attempt that yields an HTTP response — any status, 4xx and 5xx
included — is returned immediately as final (after that attempt, no
retry happens). Stated for the Python-default case `max_retry ≥ 0`. -/
theorem C5_get_page_content (att : ℕ → Option (ℕ × String)) (mr : ℕ) :
    ((∀ i, i ≤ mr → att i = none) →
        WebScanner.get_page_content att (mr : ℤ) = some (none, none)
        ∧ WebScanner.attemptCount att (mr : ℤ) = mr + 1)
    ∧ (∀ j st body, j ≤ mr → (∀ i, i < j → att i = none) → att j = some (st, body) →
        WebScanner.get_page_content att (mr : ℤ) = some (some st, some (WebScanner.strLower body))
        ∧ WebScanner.attemptCount att (mr : ℤ) = j + 1) := by
  have htn : ((mr : ℤ) + 1).toNat = mr + 1 := by omega
  constructor
  · intro hall
    have h := WebScanner.fetchIter_all_none att mr hall mr 0 (by omega)
    rw [WebScanner.get_page_content, WebScanner.attemptCount, htn, h]
    exact ⟨rfl, rfl⟩
  · intro j st body hjm hbefore hj
    have h := WebScanner.fetchIter_first_some att mr j st body hj hbefore hjm
      (mr + 1) 0 (by omega) (by omega)
    rw [WebScanner.get_page_content, WebScanner.attemptCount, htn, h]
    exact ⟨rfl, by omega⟩

/-- Claim C5, witness: with every attempt failing and `max_retry = 3`,
the fetch returns the failure pair after exactly 4 attempts; a first-
attempt 404 response is final after 1 attempt. -/
theorem C5_witness :
    (WebScanner.get_page_content (fun _ => none) ((3 : ℕ) : ℤ) = some (none, none)
      ∧ WebScanner.attemptCount (fun _ => none) ((3 : ℕ) : ℤ) = 3 + 1)
    ∧ (WebScanner.get_page_content (fun _ => some (404, "NO")) ((3 : ℕ) : ℤ)
        = some (some 404, some (WebScanner.strLower "NO"))
      ∧ WebScanner.attemptCount (fun _ => some (404, "NO")) ((3 : ℕ) : ℤ) = 0 + 1) :=
  ⟨(C5_get_page_content (fun _ => none) 3).1 (fun _ _ => rfl),
    (C5_get_page_content (fun _ => some (404, "NO")) 3).2 0 404 "NO"
      (by decide) (fun i hi => absurd hi (by omega)) rfl⟩

namespace WebScanner

/-- A probe either appends nothing or appends exactly the joined URL of
its own candidate. -/
theorem check_path_appended_shape (t : ParsedUrl) (w : Option String) (ic nf : Option String)
    (p : String) (fr : Option (ℕ × String)) (e : Option String) :
    (check_path t w ic nf p fr e).appended = none
    ∨ (check_path t w ic nf p fr e).appended = some (urlString (urljoin t p)) := by
  cases fr with
  | none => exact Or.inl rfl
  | some pr =>
    obtain ⟨st, c⟩ := pr
    simp only [check_path]
    split_ifs <;> simp

/-- The findings a wordlist contributes have no duplicates as soon as
the candidates' joined URLs are pairwise distinct. -/
theorem nodup_findings_of_nodup_urls (t : ParsedUrl) (w : Option String)
    (ic nf : Option String) (oracle : String → Option (ℕ × String))
    (ne : String → Option String) :
    ∀ wl : List String,
      (wl.map fun p => urlString (urljoin t p)).Nodup →
      (wl.filterMap fun p => (check_path t w ic nf p (oracle p) (ne p)).appended).Nodup := by
  intro wl
  induction wl with
  | nil => intro _; simp
  | cons p rest ih =>
    intro h
    rw [List.map_cons, List.nodup_cons] at h
    obtain ⟨hnotin, hrest⟩ := h
    rw [List.filterMap_cons]
    cases happ : (check_path t w ic nf p (oracle p) (ne p)).appended with
    | none => exact ih hrest
    | some u =>
      have hu : u = urlString (urljoin t p) := by
        rcases check_path_appended_shape t w ic nf p (oracle p) (ne p) with hs | hs
        · rw [happ] at hs; cases hs
        · rw [happ] at hs; exact (Option.some.injEq _ _).mp hs.symm |>.symm
      rw [List.nodup_cons]
      refine ⟨fun hmem => ?_, ih hrest⟩
      rw [List.mem_filterMap] at hmem
      obtain ⟨q, hq, hfq⟩ := hmem
      have huq : u = urlString (urljoin t q) := by
        rcases check_path_appended_shape t w ic nf q (oracle q) (ne q) with hs | hs
        · rw [hfq] at hs; cases hs
        · rw [hfq] at hs; exact (Option.some.injEq _ _).mp hs.symm |>.symm
      exact hnotin (hu ▸ huq ▸ List.mem_map_of_mem (fun p => urlString (urljoin t p)) hq)

/-- A probe's appended URL and log class do not depend on whether the
notification call raises. -/
theorem check_path_notify_indep (t : ParsedUrl) (w : Option String) (ic nf : Option String)
    (p : String) (fr : Option (ℕ × String)) (e1 e2 : Option String) :
    (check_path t w ic nf p fr e1).appended = (check_path t w ic nf p fr e2).appended
    ∧ (check_path t w ic nf p fr e1).log = (check_path t w ic nf p fr e2).log := by
  cases fr with
  | none => exact ⟨rfl, rfl⟩
  | some pr =>
    obtain ⟨st, c⟩ := pr
    simp only [check_path]
    split_ifs <;> exact ⟨rfl, rfl⟩

end WebScanner

/-- Claim C7, counterexample: the wordlist is not deduplicated, so the
repeated candidate `admin` is probed once per occurrence and the
findings collection ends with the same URL twice — the claim's "never
contains two entries with the same URL" fails. -/
theorem C7_counterexample :
    WebScanner.scanFindings (WebScanner.ParsedUrl.mk "http" "h" "") none
        ["admin", "admin"] WebScanner.oracleDup (fun _ => none)
      = ["http://h/admin", "http://h/admin"]
    ∧ ¬ (WebScanner.scanFindings (WebScanner.ParsedUrl.mk "http" "h" "") none
        ["admin", "admin"] WebScanner.oracleDup (fun _ => none)).Nodup := by decide

/-- Claim C7, amended: each wordlist entry gets exactly one probe task
(the dispatched list is the wordlist itself once the baseline holds),
each task contributes at most one finding (so at most one finding per
entry), and the findings collection is duplicate-free whenever the
entries' joined URLs are pairwise distinct — but the wordlist itself is
not deduplicated, so repeated or URL-colliding entries can produce
duplicate findings. -/
theorem C7_scan_amended (target : WebScanner.ParsedUrl) (webhook : Option String)
    (wordlist : List String) (oracle : String → Option (ℕ × String))
    (notifyErr : String → Option String) :
    ((wordlist.map fun p => WebScanner.urlString (WebScanner.urljoin target p)).Nodup →
        (WebScanner.scanFindings target webhook wordlist oracle notifyErr).Nodup)
    ∧ (WebScanner.scanFindings target webhook wordlist oracle notifyErr).length
        ≤ wordlist.length
    ∧ ((WebScanner.detect_index_and_404 oracle).isSome = true →
        WebScanner.dispatchedProbes wordlist oracle = wordlist) := by
  rcases h : WebScanner.detect_index_and_404 oracle with _ | ⟨ic, nf⟩
  · refine ⟨fun _ => ?_, ?_, fun hs => ?_⟩
    · simp [WebScanner.scanFindings, h]
    · simp [WebScanner.scanFindings, h]
    · simp at hs
  · refine ⟨fun hnd => ?_, ?_, fun _ => ?_⟩
    · rw [WebScanner.scanFindings, h]
      exact WebScanner.nodup_findings_of_nodup_urls target webhook (some ic) nf oracle
        notifyErr wordlist hnd
    · rw [WebScanner.scanFindings, h]
      exact List.length_filterMap_le _ _
    · rw [WebScanner.dispatchedProbes, h]

/-- Claim C7, witness: with distinct candidates `admin` and `login` the
findings collection is duplicate-free. -/
theorem C7_witness :
    (WebScanner.scanFindings (WebScanner.ParsedUrl.mk "http" "h" "") none
        ["admin", "login"] WebScanner.oracleDup (fun _ => none)).Nodup :=
  (C7_scan_amended (WebScanner.ParsedUrl.mk "http" "h" "") none ["admin", "login"]
    WebScanner.oracleDup (fun _ => none)).1 (by decide)

/-- Claim C8: a failure of the notification call inside one probe task
is caught inside that task (the model's `check_path` is total and
records the caught exception instead of propagating it), it changes
neither the probe's recorded finding nor its log classification, and
the whole scan's findings are identical under any assignment of
notification failures — so a notification failure never removes a
recorded finding and never affects sibling probes or the final count. -/
theorem C8_probe_isolation (target : WebScanner.ParsedUrl) (webhook : Option String)
    (ic nf : Option String) (path : String) (fetched : Option (ℕ × String))
    (e1 e2 : Option String) (wordlist : List String)
    (oracle : String → Option (ℕ × String)) (ne1 ne2 : String → Option String) :
    ((WebScanner.check_path target webhook ic nf path fetched e1).appended
        = (WebScanner.check_path target webhook ic nf path fetched e2).appended)
    ∧ ((WebScanner.check_path target webhook ic nf path fetched e1).log
        = (WebScanner.check_path target webhook ic nf path fetched e2).log)
    ∧ WebScanner.scanFindings target webhook wordlist oracle ne1
        = WebScanner.scanFindings target webhook wordlist oracle ne2 := by
  refine ⟨(WebScanner.check_path_notify_indep target webhook ic nf path fetched e1 e2).1,
    (WebScanner.check_path_notify_indep target webhook ic nf path fetched e1 e2).2, ?_⟩
  rcases h : WebScanner.detect_index_and_404 oracle with _ | ⟨jc, jn⟩
  · simp [WebScanner.scanFindings, h]
  · rw [WebScanner.scanFindings, WebScanner.scanFindings, h]
    apply List.filterMap_congr
    intro p _
    exact (WebScanner.check_path_notify_indep target webhook (some jc) jn p (oracle p)
      (ne1 p) (ne2 p)).1

/-- Claim C10: `get_page_content` returns a destructurable pair for
every `max_retry ≥ 0`; for `max_retry < 0` the loop `for attempt in
range(max_retry + 1)` runs zero iterations and the function returns no
pair (Python's implicit `None`), so every caller that destructures the
result fails. -/
theorem C10_get_page_content_total (att : ℕ → Option (ℕ × String)) (mr : ℤ) :
    (0 ≤ mr → (WebScanner.get_page_content att mr).isSome = true)
    ∧ (mr < 0 → WebScanner.get_page_content att mr = none) := by
  constructor
  · intro h
    rw [WebScanner.get_page_content]
    exact WebScanner.fetchIter_isSome att mr ((mr + 1).toNat) 0 (by omega) (by omega)
  · intro h
    have h0 : (mr + 1).toNat = 0 := by omega
    rw [WebScanner.get_page_content, h0]
    rfl

/-- Claim C10, witness: at `max_retry = 3` a pair comes back; at
`max_retry = -1` no pair is returned. -/
theorem C10_witness :
    (WebScanner.get_page_content (fun _ => none) 3).isSome = true
    ∧ WebScanner.get_page_content (fun _ => none) (-1) = none :=
  ⟨(C10_get_page_content_total (fun _ => none) 3).1 (by decide),
    (C10_get_page_content_total (fun _ => none) (-1)).2 (by decide)⟩

namespace WebScanner

/-- Setting a known entry of the task list shifts `countP` by the
difference between the old and the new entry's predicate value. -/
theorem countP_set_phase (p : TaskPhase → Bool) :
    ∀ (ts : List TaskPhase) (i : ℕ) (a b : TaskPhase), ts.get? i = some a →
      (ts.set i b).countP p + (if p a then 1 else 0)
        = ts.countP p + (if p b then 1 else 0) := by
  intro ts
  induction ts with
  | nil =>
    intro i a b h
    simp at h
  | cons t rest ih =>
    intro i a b h
    cases i with
    | zero =>
      rw [List.get?_cons_zero] at h
      injection h with h
      subst h
      rw [List.set_cons_zero, List.countP_cons, List.countP_cons]
      cases hpa : p t <;> cases hpb : p b <;> simp [hpa, hpb]
    | succ i =>
      rw [List.get?_cons_succ] at h
      rw [List.set_cons_succ, List.countP_cons, List.countP_cons]
      have hrec := ih i a b h
      omega

/-- Every scheduler step preserves the sum of free slots and holders:
an acquire moves a slot from the semaphore to a task, and a finish —
normal or erroring — moves it back. -/
theorem poolStep_invariant (n : ℕ) {s s' : PoolState} (hs : PoolStep s s')
    (h : s.sem + holdingCount s = n) : s'.sem + holdingCount s' = n := by
  cases hs with
  | acquire sem ts i hi =>
    have hc := countP_set_phase isHolding ts i TaskPhase.waiting TaskPhase.holding hi
    simp [isHolding] at hc
    simp only [holdingCount] at h ⊢
    omega
  | finishOk sem ts i hi =>
    have hc := countP_set_phase isHolding ts i TaskPhase.holding TaskPhase.done hi
    simp [isHolding] at hc
    simp only [holdingCount] at h ⊢
    omega
  | finishErr sem ts i hi =>
    have hc := countP_set_phase isHolding ts i TaskPhase.holding TaskPhase.done hi
    simp [isHolding] at hc
    simp only [holdingCount] at h ⊢
    omega

/-- Initially no task holds the gate. -/
theorem holdingCount_poolInit (n m : ℕ) : holdingCount (poolInit n m) = 0 := by
  simp only [holdingCount, poolInit]
  induction m with
  | zero => rfl
  | succ m ih =>
    rw [List.replicate_succ, List.countP_cons]
    simp [isHolding, ih]

end WebScanner

/-- Claim C9: in every state any interleaving of the semaphore-gated
probe tasks can reach, the number of tasks holding the admission gate
plus the free slots equals `threads`, so at most `threads` probes
execute their fetch simultaneously — for every wordlist size; and a
slot is returned whenever a task finishes, on success or error alike
(both finish steps restore the semaphore). -/
theorem C9_semaphore_bound (threads m : ℕ) (s : WebScanner.PoolState)
    (h : WebScanner.PoolReach threads m s) :
    s.sem + WebScanner.holdingCount s = threads
    ∧ WebScanner.holdingCount s ≤ threads := by
  have key : s.sem + WebScanner.holdingCount s = threads := by
    induction h with
    | refl =>
      rw [WebScanner.holdingCount_poolInit]
      rfl
    | tail hsteps hstep ih => exact WebScanner.poolStep_invariant threads hstep ih
  exact ⟨key, by omega⟩

/-- Claim C9, witness: with 1 slot and 2 tasks, the state after one
acquire is reachable and holds the bound. -/
theorem C9_witness :
    WebScanner.holdingCount
        (WebScanner.PoolState.mk 0 [WebScanner.TaskPhase.holding, WebScanner.TaskPhase.waiting])
      ≤ 1 := by
  have hstep : WebScanner.PoolStep (WebScanner.poolInit 1 2)
      (WebScanner.PoolState.mk 0
        [WebScanner.TaskPhase.holding, WebScanner.TaskPhase.waiting]) :=
    WebScanner.PoolStep.acquire 0
      [WebScanner.TaskPhase.waiting, WebScanner.TaskPhase.waiting] 0 rfl
  exact (C9_semaphore_bound 1 2 _
    (Relation.ReflTransGen.tail Relation.ReflTransGen.refl hstep)).2
